import Mathlib

set_option maxHeartbeats 1000000

/-!
Shallow embedding of the workflow/task orchestration engine from
`backend/core/workflow_engine.py`.

Modelling conventions:
* Python `datetime.utcnow()` readings are modelled by an explicit `now : Nat`
  logical clock (seconds); every engine step takes the clock value at which it
  runs.
* Executor payloads (`Any` in the source) are opaque to the engine and are
  modelled as `String`; dictionaries keyed by strings are association lists.
* The two Python dicts `active_workflows` / `completed_workflows` hold
  references to the same mutable `Workflow` objects.  We model this aliasing
  with a single store `workflows : List (String × Workflow)` plus the two key
  sets `active_ids` / `completed_ids`; `active_workflows` is the restriction of
  the store to `active_ids`, and moving a workflow between the dicts only
  changes the key sets.
* The `asyncio` structure is modelled as an explicit state machine whose atomic
  steps match the await-free segments of the source: `enginePass` is one
  iteration of the `_execute_workflow` loop body (which contains no `await`
  between reading the ready set and the `asyncio.create_task` calls);
  `asyncio.create_task(self._execute_task(...))` appends a (workflow id, task
  id) entry to a pending-coroutine `queue`; `startTask` is the first segment of
  `_execute_task` (counter increment, `RUNNING`, `task_started`), and
  `finishTaskSuccess` / `finishTaskFailure` are the segments after the executor
  call returns or raises.
* `_notify_listeners` fan-out is modelled by appending the emitted event to an
  `events` log (listener exceptions are swallowed by the source and do not
  affect engine state).
-/

namespace WEngine

/-- Task execution status (`class TaskStatus(Enum)`). -/
inductive TaskStatus where
  | pending
  | running
  | completed
  | failed
  | cancelled
  | waiting
deriving DecidableEq, Repr

/-- Workflow execution status (`class WorkflowStatus(Enum)`). -/
inductive WorkflowStatus where
  | created
  | running
  | completed
  | failed
  | cancelled
  | paused
deriving DecidableEq, Repr

/-- The `.value` string of a `WorkflowStatus` enum member. -/
def WorkflowStatus.value : WorkflowStatus → String
  | .created => "created"
  | .running => "running"
  | .completed => "completed"
  | .failed => "failed"
  | .cancelled => "cancelled"
  | .paused => "paused"

/-- Result of task execution (`@dataclass TaskResult`). -/
structure TaskResult where
  task_id : String
  status : TaskStatus
  result : Option String := none
  error : Option String := none
  execution_time : Nat := 0
  metadata : List (String × String) := []
  created_at : Nat := 0
deriving DecidableEq, Repr

/-- Individual task in a workflow (`@dataclass Task`). -/
structure Task where
  id : String
  name : String
  agent_type : String
  action : String
  parameters : List (String × String)
  dependencies : List String := []
  timeout : Nat := 300
  retry_count : Nat := 0
  max_retries : Nat := 3
  status : TaskStatus := TaskStatus.pending
  result : Option TaskResult := none
  created_at : Nat := 0
  started_at : Option Nat := none
  completed_at : Option Nat := none
deriving DecidableEq, Repr

/-- Workflow definition and execution state (`@dataclass Workflow`). -/
structure Workflow where
  id : String
  name : String
  description : String
  tasks : List Task
  status : WorkflowStatus := WorkflowStatus.created
  created_by : Option String := none
  created_at : Nat := 0
  started_at : Option Nat := none
  completed_at : Option Nat := none
  metadata : List (String × String) := []
  context : List (String × String) := []
deriving DecidableEq, Repr

/-- One record in the event log: event name, workflow id, optional task id. -/
structure EventRec where
  event : String
  workflow_id : String
  task_id : Option String := none
deriving DecidableEq, Repr

/-- State of a `WorkflowEngine` instance.  `workflows` is the shared object
store (see header comment); `queue` holds the coroutines created by
`asyncio.create_task(self._execute_task(...))` that have not yet started
running; `running_tasks` is `self._running_tasks`. -/
structure Engine where
  workflows : List (String × Workflow) := []
  active_ids : List String := []
  completed_ids : List String := []
  max_concurrent_workflows : Nat := 10
  max_concurrent_tasks : Nat := 20
  running_tasks : Nat := 0
  queue : List (String × String) := []
  events : List EventRec := []
deriving DecidableEq, Repr

/-- Dictionary lookup on an association list (first match, like a dict with
unique keys). -/
def lookupA {α : Type} : List (String × α) → String → Option α
  | [], _ => none
  | p :: rest, k => if p.1 == k then some p.2 else lookupA rest k

/-- Dictionary assignment `m[k] = v`: replace the first binding of `k`, or
append a new binding (Python dicts preserve insertion order). -/
def updateA {α : Type} : List (String × α) → String → α → List (String × α)
  | [], k, v => [(k, v)]
  | p :: rest, k, v => if p.1 == k then (k, v) :: rest else p :: updateA rest k v

/-- Add an id to a key set if not already present. -/
def addId (l : List String) (id : String) : List String :=
  if id ∈ l then l else l ++ [id]

/-- Python list slice `xs[:k]` for a possibly negative `k`. -/
def pySlice {α : Type} (k : Int) (xs : List α) : List α :=
  if 0 ≤ k then xs.take k.toNat else xs.take (xs.length - k.natAbs)

/-- Overwrite the store entry for a workflow id (mutating the shared object). -/
def setWorkflow (e : Engine) (wfId : String) (wf : Workflow) : Engine :=
  { e with workflows := updateA e.workflows wfId wf }

/-- Record an emitted event (`self._notify_listeners(event, workflow, task)`). -/
def addEvent (e : Engine) (name : String) (wfId : String) (taskId : Option String) : Engine :=
  { e with events := e.events ++ [⟨name, wfId, taskId⟩] }

/-- Apply `f` to the task with the given id inside the given workflow (the
source mutates the `Task` object held by `workflow.tasks`; task ids are unique
within a workflow). -/
def updateTaskIn (e : Engine) (wfId taskId : String) (f : Task → Task) : Engine :=
  match lookupA e.workflows wfId with
  | none => e
  | some wf =>
      setWorkflow e wfId
        { wf with tasks := wf.tasks.map (fun t => if t.id == taskId then f t else t) }

/-- Whether a single dependency id is satisfied: the first task with that id
must exist and be `COMPLETED` (`next((t for t in workflow.tasks if t.id ==
dep_id), None)` followed by the status check). -/
def depSatisfied (wf : Workflow) (depId : String) : Bool :=
  match wf.tasks.find? (fun u => u.id == depId) with
  | some u => u.status == TaskStatus.completed
  | none => false

/-- `WorkflowEngine._get_ready_tasks`: the `PENDING` tasks all of whose
dependencies are satisfied, in declaration order. -/
def getReadyTasks (wf : Workflow) : List Task :=
  wf.tasks.filter (fun t =>
    t.status == TaskStatus.pending && t.dependencies.all (depSatisfied wf))

/-- `WorkflowEngine._is_workflow_complete`. -/
def isWorkflowComplete (wf : Workflow) : Bool :=
  wf.tasks.all (fun t => t.status == TaskStatus.completed)

/-- `WorkflowEngine._is_workflow_stuck`: some task `PENDING` and none
`RUNNING`. -/
def isWorkflowStuck (wf : Workflow) : Bool :=
  let pending := wf.tasks.filter (fun t => t.status == TaskStatus.pending)
  let running := wf.tasks.filter (fun t => t.status == TaskStatus.running)
  decide (0 < pending.length) && decide (running.length = 0)

/-- `str(KeyError(key))` as produced by `del d[key]` on a missing key. -/
def keyErrStr (key : String) : String := "\x27" ++ key ++ "\x27"

/-- The state mutations of `WorkflowEngine._complete_workflow` up to (but not
including) `del self.active_workflows[workflow.id]`: set `COMPLETED`, stamp
`completed_at`, insert into the completed dict. -/
def completeMut (e : Engine) (wfId : String) (now : Nat) : Engine :=
  match lookupA e.workflows wfId with
  | none => e
  | some wf =>
      let e1 := setWorkflow e wfId
        { wf with status := WorkflowStatus.completed, completed_at := some now }
      { e1 with completed_ids := addId e1.completed_ids wfId }

/-- The state mutations of `WorkflowEngine._fail_workflow` up to (but not
including) `del self.active_workflows[workflow.id]`: set `FAILED`, stamp
`completed_at`, record `metadata["error"]`, insert into the completed dict. -/
def failMut (e : Engine) (wfId : String) (err : String) (now : Nat) : Engine :=
  match lookupA e.workflows wfId with
  | none => e
  | some wf =>
      let e1 := setWorkflow e wfId
        { wf with status := WorkflowStatus.failed, completed_at := some now,
                  metadata := updateA wf.metadata "error" err }
      { e1 with completed_ids := addId e1.completed_ids wfId }

/-- The tasks selected for dispatch in one pass:
`ready_tasks[:self.max_concurrent_tasks - self._running_tasks]` (a Python
slice; the bound can be negative). -/
def dispatchSelection (e : Engine) (wf : Workflow) : List Task :=
  pySlice ((e.max_concurrent_tasks : Int) - (e.running_tasks : Int)) (getReadyTasks wf)

/-- One iteration of the `while True` body of
`WorkflowEngine._execute_workflow` for the workflow with the given id.  The
driver coroutine holds the `Workflow` object directly; the object always
exists in the store.  If the ready set is empty the pass runs the completion
check, then the stuck check, else sleeps; otherwise it creates one
`_execute_task` coroutine per selected ready task (appended to `queue`).

`_complete_workflow` / `_fail_workflow` end with
`del self.active_workflows[workflow.id]`, which raises `KeyError` when the
workflow has already been removed from the active dict (e.g. by
`cancel_workflow`); the `except` clause of `_execute_workflow` then calls
`_fail_workflow(workflow, str(e))`, whose own `del` raises again, killing the
driver coroutine.  The mutations performed before each `del` persist; the
corresponding event is not emitted. -/
def enginePass (e : Engine) (wfId : String) (now : Nat) : Engine :=
  match lookupA e.workflows wfId with
  | none => e
  | some wf =>
      let ready := getReadyTasks wf
      if ready.isEmpty then
        if isWorkflowComplete wf then
          let e1 := completeMut e wfId now
          if wfId ∈ e.active_ids then
            addEvent { e1 with active_ids := e1.active_ids.erase wfId }
              "workflow_completed" wfId none
          else
            failMut e1 wfId (keyErrStr wfId) now
        else if isWorkflowStuck wf then
          let e1 := failMut e wfId "Workflow is stuck - no tasks can proceed" now
          if wfId ∈ e.active_ids then
            addEvent { e1 with active_ids := e1.active_ids.erase wfId }
              "workflow_failed" wfId none
          else
            failMut e1 wfId (keyErrStr wfId) now
        else
          e
      else
        { e with queue := e.queue ++ (dispatchSelection e wf).map (fun t => (wfId, t.id)) }

/-- `WorkflowEngine.create_workflow`: reject when the active dict is at
capacity, else register the workflow and emit `workflow_created`. -/
def createWorkflow (e : Engine) (wf : Workflow) : Except String Engine :=
  if e.active_ids.length ≥ e.max_concurrent_workflows then
    Except.error "Maximum concurrent workflows reached"
  else
    let e1 := setWorkflow e wf.id wf
    let e2 := { e1 with active_ids := addId e1.active_ids wf.id }
    Except.ok (addEvent e2 "workflow_created" wf.id none)

/-- `WorkflowEngine.start_workflow`: `ValueError` if unknown, `RuntimeError`
unless `CREATED`; else mark `RUNNING`, stamp `started_at`, emit
`workflow_started` and spawn the driver coroutine (whose passes are applied
explicitly via `enginePass`). -/
def startWorkflowOp (e : Engine) (wfId : String) (now : Nat) : Except String Engine :=
  if wfId ∈ e.active_ids then
    match lookupA e.workflows wfId with
    | some wf =>
        if wf.status = WorkflowStatus.created then
          let wf2 := { wf with status := WorkflowStatus.running, started_at := some now }
          Except.ok (addEvent (setWorkflow e wfId wf2) "workflow_started" wfId none)
        else
          Except.error ("Workflow " ++ wfId ++ " is not in created state")
    | none => Except.error ("Workflow " ++ wfId ++ " not found")
  else
    Except.error ("Workflow " ++ wfId ++ " not found")

/-- `WorkflowEngine.cancel_workflow`: `False` when the id is not active; else
set the workflow `CANCELLED`, stamp `completed_at`, mark every `RUNNING` task
`CANCELLED`, move the workflow to the completed dict, emit
`workflow_cancelled`, return `True`. -/
def cancelWorkflow (e : Engine) (wfId : String) (now : Nat) : Engine × Bool :=
  if wfId ∈ e.active_ids then
    match lookupA e.workflows wfId with
    | some wf =>
        let wf2 :=
          { wf with status := WorkflowStatus.cancelled, completed_at := some now,
                    tasks := wf.tasks.map (fun t =>
                      if t.status = TaskStatus.running then
                        { t with status := TaskStatus.cancelled, completed_at := some now }
                      else t) }
        let e1 := setWorkflow e wfId wf2
        let e2 := { e1 with completed_ids := addId e1.completed_ids wfId,
                            active_ids := e1.active_ids.erase wfId }
        (addEvent e2 "workflow_cancelled" wfId none, true)
    | none => (e, false)
  else (e, false)

/-- First segment of `WorkflowEngine._execute_task` for a created coroutine:
increment `self._running_tasks` (under the lock), set the task `RUNNING`,
stamp `started_at`, emit `task_started`.  The coroutine is removed from the
pending queue. -/
def startTask (e : Engine) (wfId taskId : String) (now : Nat) : Engine :=
  if (wfId, taskId) ∈ e.queue then
    let e1 := { e with queue := e.queue.erase (wfId, taskId),
                       running_tasks := e.running_tasks + 1 }
    let e2 := updateTaskIn e1 wfId taskId (fun t =>
      { t with status := TaskStatus.running, started_at := some now })
    addEvent e2 "task_started" wfId (some taskId)
  else e

/-- Task-object mutations on executor success (lines 414-423 of the source):
build the `TaskResult`, set the task `COMPLETED`, stamp `completed_at`.  Note
there is no guard on the current status. -/
def taskSuccessUpd (now : Nat) (payload : String) (t : Task) : Task :=
  let r : TaskResult :=
    { task_id := t.id, status := TaskStatus.completed, result := some payload,
      execution_time := now - t.started_at.getD now, created_at := now }
  { t with result := some r, status := TaskStatus.completed, completed_at := some now }

/-- Task-object mutations in the `except` clause of `_execute_task` before the
retry check: record the failed `TaskResult` (elapsed time `0` when
`started_at` is unset), set the task `FAILED`, stamp `completed_at`. -/
def taskFailRecord (now : Nat) (err : String) (t : Task) : Task :=
  let r : TaskResult :=
    { task_id := t.id, status := TaskStatus.failed, error := some err,
      execution_time := match t.started_at with | some s => now - s | none => 0,
      created_at := now }
  { t with result := some r, status := TaskStatus.failed, completed_at := some now }

/-- The retry check of `_execute_task`: while `retry_count < max_retries`,
increment `retry_count`, return to `PENDING` and clear both timestamps. -/
def taskMaybeRetry (t : Task) : Task :=
  if t.retry_count < t.max_retries then
    { t with retry_count := t.retry_count + 1, status := TaskStatus.pending,
             started_at := none, completed_at := none }
  else t

/-- Segment of `_execute_task` after the executor call returns: apply
`taskSuccessUpd`, write the result into `workflow.context[task.id]`, emit
`task_completed`, decrement the running counter (the `finally` clause). -/
def finishTaskSuccess (e : Engine) (wfId taskId : String) (payload : String) (now : Nat) :
    Engine :=
  let e1 := updateTaskIn e wfId taskId (taskSuccessUpd now payload)
  let e2 :=
    match lookupA e1.workflows wfId with
    | some wf => setWorkflow e1 wfId { wf with context := updateA wf.context taskId payload }
    | none => e1
  let e3 := addEvent e2 "task_completed" wfId (some taskId)
  { e3 with running_tasks := e3.running_tasks - 1 }

/-- Segment of `_execute_task` after the executor call raises: apply
`taskFailRecord`, emit `task_failed`, apply the retry check, decrement the
running counter. -/
def finishTaskFailure (e : Engine) (wfId taskId : String) (err : String) (now : Nat) :
    Engine :=
  let e1 := updateTaskIn e wfId taskId (taskFailRecord now err)
  let e2 := addEvent e1 "task_failed" wfId (some taskId)
  let e3 := updateTaskIn e2 wfId taskId taskMaybeRetry
  { e3 with running_tasks := e3.running_tasks - 1 }

/-- One full failed execution attempt of a single task whose executor raises:
the `PENDING → RUNNING → FAILED (→ PENDING on retry)` cycle at the task level. -/
def failCycle (now : Nat) (err : String) (t : Task) : Task :=
  taskMaybeRetry (taskFailRecord now err
    { t with status := TaskStatus.running, started_at := some now })

/-- The task-level mutation performed when a task enters `RUNNING`. -/
def taskStartUpd (now : Nat) (t : Task) : Task :=
  { t with status := TaskStatus.running, started_at := some now }

/-- Closed form of a task (initial `retry_count = 0`) after `k` failed
attempts with retries remaining: `retry_count = k`, back to `PENDING`, both
timestamps cleared, the latest failure recorded in `result` (elapsed time `0`
because start and failure carry the same clock value). -/
def retriedTask (t0 : Task) (now : Nat) (err : String) (k : Nat) : Task :=
  if k = 0 then t0 else
    { t0 with retry_count := k, status := TaskStatus.pending,
              started_at := none, completed_at := none,
              result := some { task_id := t0.id, status := TaskStatus.failed,
                               error := some err, execution_time := 0,
                               created_at := now } }

/-- `self.active_workflows.get(id) or self.completed_workflows.get(id)` (a
`Workflow` object is always truthy). -/
def foundWorkflow (e : Engine) (wfId : String) : Option Workflow :=
  if wfId ∈ e.active_ids then lookupA e.workflows wfId
  else if wfId ∈ e.completed_ids then lookupA e.workflows wfId
  else none

/-- The status snapshot built by `WorkflowEngine.get_workflow_status`.
Timestamps are reported as the raw logical clock (the source renders them with
`isoformat()`). -/
structure StatusView where
  id : String
  name : String
  status : String
  total_tasks : Nat
  completed_tasks : Nat
  failed_tasks : Nat
  running_tasks : Nat
  progress_percentage : ℚ
  created_at : Nat
  started_at : Option Nat
  completed_at : Option Nat
  metadata : List (String × String)
deriving DecidableEq, Repr

/-- Number of `COMPLETED` tasks of a workflow. -/
def completedCount (wf : Workflow) : Nat :=
  (wf.tasks.filter (fun t => t.status == TaskStatus.completed)).length

/-- Number of `FAILED` tasks of a workflow. -/
def failedCount (wf : Workflow) : Nat :=
  (wf.tasks.filter (fun t => t.status == TaskStatus.failed)).length

/-- Number of `RUNNING` tasks of a workflow. -/
def runningCount (wf : Workflow) : Nat :=
  (wf.tasks.filter (fun t => t.status == TaskStatus.running)).length

/-- `WorkflowEngine.get_workflow_status`.  The division
`completed_tasks / len(workflow.tasks)` is unguarded in the source and raises
`ZeroDivisionError` when the task list is empty; this is modelled by the
`Except.error` branch. -/
def getWorkflowStatus (e : Engine) (wfId : String) : Except String (Option StatusView) :=
  match foundWorkflow e wfId with
  | none => Except.ok none
  | some wf =>
      if wf.tasks.length = 0 then Except.error "ZeroDivisionError"
      else
        Except.ok (some
          { id := wf.id, name := wf.name, status := wf.status.value,
            total_tasks := wf.tasks.length,
            completed_tasks := completedCount wf,
            failed_tasks := failedCount wf,
            running_tasks := runningCount wf,
            progress_percentage :=
              ((completedCount wf : ℚ) / (wf.tasks.length : ℚ)) * 100,
            created_at := wf.created_at, started_at := wf.started_at,
            completed_at := wf.completed_at, metadata := wf.metadata })

/-- Number of tasks with status `RUNNING` across every workflow in the store. -/
def runningTaskCount (e : Engine) : Nat :=
  (e.workflows.map (fun p => runningCount p.2)).sum

/-- Status of the workflow object with the given id. -/
def workflowStatusAt (e : Engine) (wfId : String) : Option WorkflowStatus :=
  (lookupA e.workflows wfId).map Workflow.status

/-- Status of a task inside a workflow. -/
def taskStatusAt (e : Engine) (wfId taskId : String) : Option TaskStatus :=
  match lookupA e.workflows wfId with
  | some wf => (wf.tasks.find? (fun t => t.id == taskId)).map Task.status
  | none => none

/-- Result object of a task inside a workflow. -/
def taskResultAt (e : Engine) (wfId taskId : String) : Option TaskResult :=
  match lookupA e.workflows wfId with
  | some wf =>
      match wf.tasks.find? (fun t => t.id == taskId) with
      | some t => t.result
      | none => none
  | none => none

/-- Entry of a workflow's shared `context` map. -/
def contextAt (e : Engine) (wfId key : String) : Option String :=
  match lookupA e.workflows wfId with
  | some wf => lookupA wf.context key
  | none => none

/-!
Concrete execution traces.  Each state is obtained from the empty engine by an
explicit sequence of model steps; every step corresponds to a schedulable
segment of the source under the `asyncio` event loop (see the header comment).
-/

/-- `createWorkflow` specialised to the success case (used only on inputs where
capacity is available). -/
def createWF (e : Engine) (wf : Workflow) : Engine :=
  match createWorkflow e wf with
  | Except.ok r => r
  | Except.error _ => e

/-- `startWorkflowOp` specialised to the success case. -/
def startWF (e : Engine) (wfId : String) (now : Nat) : Engine :=
  match startWorkflowOp e wfId now with
  | Except.ok r => r
  | Except.error _ => e

/-- The empty engine as built by `WorkflowEngine.__init__`. -/
def e0 : Engine := {}

/-- Independent task `A` of the cancellation scenario. -/
def taskA : Task :=
  { id := "A", name := "A", agent_type := "chat", action := "act", parameters := [] }

/-- Task `B`, which depends on `A`. -/
def taskB : Task :=
  { id := "B", name := "B", agent_type := "chat", action := "act", parameters := [],
    dependencies := ["A"] }

/-- Two-task workflow used for the cancellation scenario. -/
def wfCancel : Workflow :=
  { id := "w", name := "w", description := "", tasks := [taskA, taskB] }

/-- Cancellation scenario, step 1: create the workflow. -/
def cs1 : Engine := createWF e0 wfCancel

/-- Step 2: start it (driver coroutine spawned). -/
def cs2 : Engine := startWF cs1 "w" 0

/-- Step 3: first driver pass; `A` is ready and is dispatched. -/
def cs3 : Engine := enginePass cs2 "w" 1

/-- Step 4: the created `_execute_task` coroutine for `A` starts; its executor
call is now in flight. -/
def cs4 : Engine := startTask cs3 "w" "A" 2

/-- Step 5: `cancel_workflow("w")` while `A` is `RUNNING` and `B` `PENDING`. -/
def cs5 : Engine := (cancelWorkflow cs4 "w" 3).1

/-- Step 6: `A`'s in-flight executor call returns; the success path of
`_execute_task` runs. -/
def cs6 : Engine := finishTaskSuccess cs5 "w" "A" "resultA" 4

/-- Step 7: the driver loop (which never checks the workflow status) runs its
next pass; `B` is ready because `A` is recorded `COMPLETED`. -/
def cs7 : Engine := enginePass cs6 "w" 5

/-- Step 8: the created coroutine for `B` starts. -/
def cs8 : Engine := startTask cs7 "w" "B" 6

/-- Independent no-dependency task used in the concurrency scenario. -/
def mkFree (pfx : String) (i : Nat) : Task :=
  { id := pfx ++ toString i, name := pfx, agent_type := "chat", action := "act",
    parameters := [] }

/-- Workflow `u` with 11 independent tasks. -/
def wfU : Workflow :=
  { id := "u", name := "u", description := "", tasks := (List.range 11).map (mkFree "u") }

/-- Workflow `v` with 10 independent tasks. -/
def wfV : Workflow :=
  { id := "v", name := "v", description := "", tasks := (List.range 10).map (mkFree "v") }

/-- Concurrency scenario: create and start both workflows, then run each
driver's first pass before any created task coroutine has run (the event loop
order: driver `u`, driver `v`, then the created coroutines), then start every
created coroutine. -/
def n1 : Engine := createWF e0 wfU

/-- Concurrency scenario, step 2. -/
def n2 : Engine := createWF n1 wfV

/-- Concurrency scenario, step 3. -/
def n3 : Engine := startWF n2 "u" 0

/-- Concurrency scenario, step 4. -/
def n4 : Engine := startWF n3 "v" 0

/-- Concurrency scenario, step 5: driver `u` dispatches all 11 of its tasks
(`_running_tasks` is still 0). -/
def n5 : Engine := enginePass n4 "u" 1

/-- Concurrency scenario, step 6: driver `v` dispatches all 10 of its tasks
(`_running_tasks` is still 0: the 11 created coroutines have not run yet). -/
def n6 : Engine := enginePass n5 "v" 1

/-- Concurrency scenario, step 7: all 21 created coroutines start. -/
def n7 : Engine := n6.queue.foldl (fun acc p => startTask acc p.1 p.2 2) n6

/-- Single task of the completion-invariant scenario. -/
def taskT : Task :=
  { id := "T", name := "T", agent_type := "chat", action := "act", parameters := [] }

/-- One-task workflow used for the completion-invariant scenario. -/
def wfSingle : Workflow :=
  { id := "s", name := "s", description := "", tasks := [taskT] }

/-- Completion scenario, step 1. -/
def m1 : Engine := createWF e0 wfSingle

/-- Completion scenario, step 2. -/
def m2 : Engine := startWF m1 "s" 0

/-- Completion scenario, step 3: `T` is dispatched. -/
def m3 : Engine := enginePass m2 "s" 1

/-- Completion scenario, step 4: `T` starts. -/
def m4 : Engine := startTask m3 "s" "T" 2

/-- Completion scenario, step 5: `T`'s executor returns; every task of the
workflow is now `COMPLETED` while the workflow itself is still `RUNNING`
(the driver has not run its next pass yet). -/
def m5 : Engine := finishTaskSuccess m4 "s" "T" "ok" 3

/-- The workflow object of the completion scenario at state `m5`. -/
def m5wf : Workflow := (lookupA m5.workflows "s").getD wfSingle

/-- Independent task of the missing-dependency scenario. -/
def taskDA : Task :=
  { id := "DA", name := "DA", agent_type := "chat", action := "act", parameters := [] }

/-- Task whose dependency id names no task of the workflow. -/
def taskDB : Task :=
  { id := "DB", name := "DB", agent_type := "chat", action := "act", parameters := [],
    dependencies := ["ghost"] }

/-- Workflow with an unsatisfiable (nonexistent) dependency. -/
def wfD : Workflow :=
  { id := "d", name := "d", description := "", tasks := [taskDA, taskDB] }

/-- Missing-dependency scenario, step 1. -/
def d1 : Engine := createWF e0 wfD

/-- Missing-dependency scenario, step 2. -/
def d2 : Engine := startWF d1 "d" 0

/-- Missing-dependency scenario, step 3: `DA` dispatched. -/
def d3 : Engine := enginePass d2 "d" 1

/-- Missing-dependency scenario, step 4: `DA` starts. -/
def d4 : Engine := startTask d3 "d" "DA" 2

/-- Missing-dependency scenario, step 5: `DA` completes; `DB` stays blocked
behind the nonexistent id. -/
def d5 : Engine := finishTaskSuccess d4 "d" "DA" "resDA" 3

/-- Missing-dependency scenario, step 6: the next driver pass finds the ready
set empty, no task `RUNNING` and `DB` still `PENDING`, and fails the
workflow. -/
def d6 : Engine := enginePass d5 "d" 4

/-- The workflow object of the missing-dependency scenario at state `d5`. -/
def d5wf : Workflow := (lookupA d5.workflows "d").getD wfD

/-- The workflow object of the cancellation scenario at state `cs4` (task `A`
running, task `B` pending). -/
def cs4wf : Workflow := (lookupA cs4.workflows "w").getD wfCancel

/-- The workflow object of the cancellation scenario at state `cs6` (task `A`
completed, task `B` pending). -/
def cs6wf : Workflow := (lookupA cs6.workflows "w").getD wfCancel

/-!  Theorems settling the claims.  -/

theorem lookupA_updateA_self {α : Type} (m : List (String × α)) (k : String) (v : α) :
    lookupA (updateA m k v) k = some v := by
  induction m with
  | nil => simp [updateA, lookupA]
  | cons p rest ih =>
      by_cases h : p.1 == k
      · simp [updateA, h, lookupA]
      · simp [updateA, h, lookupA, ih]

theorem lookupA_updateA_ne {α : Type} (m : List (String × α)) (k j : String) (v : α)
    (h : j ≠ k) : lookupA (updateA m k v) j = lookupA m j := by
  have hkj : (k == j) = false := beq_eq_false_iff_ne.mpr (Ne.symm h)
  induction m with
  | nil => simp [updateA, lookupA, hkj]
  | cons p rest ih =>
      by_cases hp : p.1 == k
      · have hpk : p.1 = k := by simpa [beq_iff_eq] using hp
        simp [updateA, hp, lookupA, hkj, hpk]
      · simp only [updateA, hp, Bool.false_eq_true, if_false]
        by_cases hpj : p.1 == j
        · simp [lookupA, hpj]
        · simp [lookupA, hpj, ih]

theorem mem_addId_self (l : List String) (id : String) : id ∈ addId l id := by
  unfold addId; split
  · assumption
  · simp

theorem mem_addId_of_ne (l : List String) (id j : String) (h : j ≠ id) :
    j ∈ addId l id ↔ j ∈ l := by
  unfold addId; split
  · rfl
  · simp [h]

theorem pySlice_subset {α : Type} (k : Int) (xs : List α) : pySlice k xs ⊆ xs := by
  unfold pySlice; split <;> exact (List.take_prefix _ _).subset

theorem addEvent_queue (e : Engine) (n w : String) (t : Option String) :
    (addEvent e n w t).queue = e.queue := rfl

theorem completeMut_queue (e : Engine) (i : String) (now : Nat) :
    (completeMut e i now).queue = e.queue := by
  unfold completeMut; cases lookupA e.workflows i <;> rfl

theorem failMut_queue (e : Engine) (i err : String) (now : Nat) :
    (failMut e i err now).queue = e.queue := by
  unfold failMut; cases lookupA e.workflows i <;> rfl

theorem depSatisfied_iff (wf : Workflow) (d : String)
    (hN : (wf.tasks.map Task.id).Nodup) :
    depSatisfied wf d = true ↔
      ∃ u, u ∈ wf.tasks ∧ u.id = d ∧ u.status = TaskStatus.completed := by
  unfold depSatisfied
  constructor
  · intro h
    cases hf : wf.tasks.find? (fun u => u.id == d) with
    | none => rw [hf] at h; exact absurd h (by simp)
    | some u =>
        rw [hf] at h
        refine ⟨u, List.mem_of_find?_eq_some hf, ?_, ?_⟩
        · have := List.find?_some hf; simpa [beq_iff_eq] using this
        · simpa [beq_iff_eq] using h
  · rintro ⟨u, hu, hid, hst⟩
    cases hf : wf.tasks.find? (fun u => u.id == d) with
    | none =>
        have hsome : (wf.tasks.find? (fun u => u.id == d)).isSome := by
          rw [List.find?_isSome]; exact ⟨u, hu, by simp [beq_iff_eq, hid]⟩
        rw [hf] at hsome; simp at hsome
    | some u2 =>
        have hu2mem := List.mem_of_find?_eq_some hf
        have hu2id : u2.id = d := by simpa [beq_iff_eq] using List.find?_some hf
        have heq : u2 = u :=
          List.inj_on_of_nodup_map hN hu2mem hu (by rw [hu2id, hid])
        simp [heq, hst]

/-- C1: under the data-model assumption that task ids are unique within a
workflow, `_get_ready_tasks` returns exactly the `PENDING` tasks all of whose
dependency ids name a `COMPLETED` task of the same workflow (a dependency id
naming no task is never satisfied), and every coroutine a scheduling pass
creates is for a task belonging to the ready set computed by that pass. -/
theorem C1_ready_set_dispatch (wf : Workflow) (t : Task)
    (hN : (wf.tasks.map Task.id).Nodup) :
    (t ∈ getReadyTasks wf ↔
      t ∈ wf.tasks ∧ t.status = TaskStatus.pending ∧
        ∀ d ∈ t.dependencies,
          ∃ u, u ∈ wf.tasks ∧ u.id = d ∧ u.status = TaskStatus.completed) ∧
    (∀ (e : Engine) (wfId : String) (now : Nat) (p : String × String),
      lookupA e.workflows wfId = some wf →
      p ∈ (enginePass e wfId now).queue →
      p ∈ e.queue ∨ ∃ u ∈ getReadyTasks wf, p = (wfId, u.id)) := by
  constructor
  · have hds := fun d => depSatisfied_iff wf d hN
    simp only [getReadyTasks, List.mem_filter, Bool.and_eq_true, beq_iff_eq,
      List.all_eq_true, hds]
  · intro e wfId now p hw hp
    simp only [enginePass, hw] at hp
    by_cases hr : (getReadyTasks wf).isEmpty
    · left
      rw [if_pos hr] at hp
      by_cases hc : isWorkflowComplete wf = true
      · rw [if_pos hc] at hp
        by_cases ha : wfId ∈ e.active_ids
        · rwa [if_pos ha, addEvent_queue, completeMut_queue] at hp
        · rwa [if_neg ha, failMut_queue, completeMut_queue] at hp
      · rw [if_neg hc] at hp
        by_cases hs : isWorkflowStuck wf = true
        · rw [if_pos hs] at hp
          by_cases ha : wfId ∈ e.active_ids
          · rwa [if_pos ha, addEvent_queue, failMut_queue] at hp
          · rwa [if_neg ha, failMut_queue, failMut_queue] at hp
        · rwa [if_neg hs] at hp
    · rw [if_neg hr] at hp
      simp only [List.mem_append, List.mem_map] at hp
      rcases hp with hp | ⟨u, hu, hpu⟩
      · exact Or.inl hp
      · exact Or.inr ⟨u, pySlice_subset _ _ hu, hpu.symm⟩

/-- C1 witness: the characterization and the dispatch property instantiated at
the concrete one-task workflow `wfSingle` and the task `taskT`. -/
theorem C1_ready_set_dispatch_witness :
    (taskT ∈ getReadyTasks wfSingle ↔
      taskT ∈ wfSingle.tasks ∧ taskT.status = TaskStatus.pending ∧
        ∀ d ∈ taskT.dependencies,
          ∃ u, u ∈ wfSingle.tasks ∧ u.id = d ∧ u.status = TaskStatus.completed) ∧
    (∀ (e : Engine) (wfId : String) (now : Nat) (p : String × String),
      lookupA e.workflows wfId = some wfSingle →
      p ∈ (enginePass e wfId now).queue →
      p ∈ e.queue ∨ ∃ u ∈ getReadyTasks wfSingle, p = (wfId, u.id)) :=
  C1_ready_set_dispatch wfSingle taskT (by decide)

theorem mem_getReadyTasks_pending (wf : Workflow) (u : Task) :
    u ∈ getReadyTasks wf → u.status = TaskStatus.pending := by
  intro h
  simp only [getReadyTasks, List.mem_filter, Bool.and_eq_true, beq_iff_eq] at h
  exact h.2.1

theorem failCycle_step (t0 : Task) (now : Nat) (err : String) (k : Nat)
    (hrc : t0.retry_count = 0) (hk : k < t0.max_retries) :
    failCycle now err (retriedTask t0 now err k) = retriedTask t0 now err (k + 1) := by
  have hsub : now - now = 0 := Nat.sub_self now
  by_cases hk0 : k = 0
  · subst hk0
    simp only [retriedTask, if_pos rfl, if_neg (Nat.one_ne_zero)]
    unfold failCycle taskFailRecord taskMaybeRetry
    simp [hrc, hk, hsub]
  · simp only [retriedTask, if_neg hk0, if_neg (Nat.succ_ne_zero k)]
    unfold failCycle taskFailRecord taskMaybeRetry
    simp [hk, hsub]

theorem failCycle_iter (t0 : Task) (now : Nat) (err : String)
    (hrc : t0.retry_count = 0) :
    ∀ k, k ≤ t0.max_retries →
      (failCycle now err)^[k] t0 = retriedTask t0 now err k := by
  intro k
  induction k with
  | zero => intro _; simp [retriedTask]
  | succ n ih =>
      intro hk
      rw [Function.iterate_succ_apply', ih (Nat.le_of_succ_le hk),
        failCycle_step t0 now err n hrc (Nat.lt_of_succ_le hk)]

/-- C2: for a task whose executor raises on every invocation (each attempt is
one `failCycle`), the task passes through `PENDING → RUNNING → FAILED` exactly
`max_retries + 1` times: after each of the first `max_retries` failures the
engine increments `retry_count`, clears both timestamps and returns the task
to `PENDING`; after attempt `max_retries + 1` it is `FAILED` with
`retry_count = max_retries`, and it can never again appear in a ready set
(only `PENDING` tasks are ever ready, and only ready tasks are dispatched). -/
theorem C2_retry_bound (t0 : Task) (now : Nat) (err : String)
    (hst : t0.status = TaskStatus.pending) (hrc : t0.retry_count = 0) :
    (∀ k, k ≤ t0.max_retries →
      ((failCycle now err)^[k] t0).status = TaskStatus.pending ∧
      ((failCycle now err)^[k] t0).retry_count = k ∧
      (k ≠ 0 → ((failCycle now err)^[k] t0).started_at = none ∧
               ((failCycle now err)^[k] t0).completed_at = none) ∧
      (taskStartUpd now ((failCycle now err)^[k] t0)).status = TaskStatus.running ∧
      (taskFailRecord now err
        (taskStartUpd now ((failCycle now err)^[k] t0))).status = TaskStatus.failed) ∧
    ((failCycle now err)^[t0.max_retries + 1] t0).status = TaskStatus.failed ∧
    ((failCycle now err)^[t0.max_retries + 1] t0).retry_count = t0.max_retries ∧
    (∀ wf : Workflow, (failCycle now err)^[t0.max_retries + 1] t0 ∉ getReadyTasks wf) ∧
    (∀ (wf : Workflow) (u : Task),
      u ∈ getReadyTasks wf → u.status = TaskStatus.pending) := by
  have hfin :
      (failCycle now err)^[t0.max_retries + 1] t0 =
        taskMaybeRetry (taskFailRecord now err
          { retriedTask t0 now err t0.max_retries with
              status := TaskStatus.running, started_at := some now }) := by
    rw [Function.iterate_succ_apply', failCycle_iter t0 now err hrc _ le_rfl]
    rfl
  have hfinrc :
      (taskFailRecord now err
        { retriedTask t0 now err t0.max_retries with
            status := TaskStatus.running, started_at := some now }).retry_count
        = t0.max_retries := by
    unfold retriedTask taskFailRecord
    by_cases h0 : t0.max_retries = 0 <;> simp [h0, hrc]
  have hfin2 :
      (failCycle now err)^[t0.max_retries + 1] t0 =
        taskFailRecord now err
          { retriedTask t0 now err t0.max_retries with
              status := TaskStatus.running, started_at := some now } := by
    have hmr :
        (taskFailRecord now err
          { retriedTask t0 now err t0.max_retries with
              status := TaskStatus.running, started_at := some now }).max_retries
          = t0.max_retries := by
      unfold retriedTask taskFailRecord
      by_cases h0 : t0.max_retries = 0 <;> simp [h0]
    rw [hfin]
    unfold taskMaybeRetry
    rw [if_neg]
    rw [hfinrc, hmr]
    exact Nat.lt_irrefl _
  refine ⟨?_, ?_, ?_, ?_, fun wf u => mem_getReadyTasks_pending wf u⟩
  · intro k hk
    rw [failCycle_iter t0 now err hrc k hk]
    unfold retriedTask taskStartUpd taskFailRecord
    by_cases hk0 : k = 0 <;> simp [hk0, hst, hrc]
  · rw [hfin2]; rfl
  · rw [hfin2, hfinrc]
  · intro wf hmem
    have hp := mem_getReadyTasks_pending wf _ hmem
    rw [hfin2] at hp
    simp [taskFailRecord] at hp

/-- C2 witness: the retry bound instantiated at the concrete fresh task
`taskT` (`retry_count = 0`, `max_retries = 3`). -/
theorem C2_retry_bound_witness :
    (∀ k, k ≤ taskT.max_retries →
      ((failCycle 5 "boom")^[k] taskT).status = TaskStatus.pending ∧
      ((failCycle 5 "boom")^[k] taskT).retry_count = k ∧
      (k ≠ 0 → ((failCycle 5 "boom")^[k] taskT).started_at = none ∧
               ((failCycle 5 "boom")^[k] taskT).completed_at = none) ∧
      (taskStartUpd 5 ((failCycle 5 "boom")^[k] taskT)).status = TaskStatus.running ∧
      (taskFailRecord 5 "boom"
        (taskStartUpd 5 ((failCycle 5 "boom")^[k] taskT))).status = TaskStatus.failed) ∧
    ((failCycle 5 "boom")^[taskT.max_retries + 1] taskT).status = TaskStatus.failed ∧
    ((failCycle 5 "boom")^[taskT.max_retries + 1] taskT).retry_count = taskT.max_retries ∧
    (∀ wf : Workflow, (failCycle 5 "boom")^[taskT.max_retries + 1] taskT ∉ getReadyTasks wf) ∧
    (∀ (wf : Workflow) (u : Task),
      u ∈ getReadyTasks wf → u.status = TaskStatus.pending) :=
  C2_retry_bound taskT 5 "boom" (by decide) (by decide)

theorem failMut_workflows (e : Engine) (i err : String) (now : Nat) (wf : Workflow)
    (hw : lookupA e.workflows i = some wf) :
    (failMut e i err now).workflows =
      updateA e.workflows i
        { wf with status := WorkflowStatus.failed, completed_at := some now,
                  metadata := updateA wf.metadata "error" err } := by
  unfold failMut; rw [hw]; rfl

theorem failMut_active (e : Engine) (i err : String) (now : Nat) :
    (failMut e i err now).active_ids = e.active_ids := by
  unfold failMut; cases lookupA e.workflows i <;> rfl

theorem failMut_events (e : Engine) (i err : String) (now : Nat) :
    (failMut e i err now).events = e.events := by
  unfold failMut; cases lookupA e.workflows i <;> rfl

theorem failMut_completed (e : Engine) (i err : String) (now : Nat) (wf : Workflow)
    (hw : lookupA e.workflows i = some wf) :
    (failMut e i err now).completed_ids = addId e.completed_ids i := by
  unfold failMut; rw [hw]; rfl

/-- C3: whenever a running workflow's ready set is empty, none of its tasks is
`RUNNING` and at least one is still `PENDING`, the next driver pass marks the
workflow `FAILED` with the descriptive reason recorded in
`metadata["error"]`, removes it from the active dict, inserts it into the
completed dict and emits `workflow_failed`; in particular the concrete
workflow `wfD`, whose task `DB` depends on the nonexistent id `ghost`, reaches
`FAILED` status. -/
theorem C3_stuck_detection :
    (∀ (e : Engine) (wfId : String) (wf : Workflow) (now : Nat),
      lookupA e.workflows wfId = some wf →
      wfId ∈ e.active_ids → e.active_ids.Nodup →
      getReadyTasks wf = [] →
      (∀ t ∈ wf.tasks, t.status ≠ TaskStatus.running) →
      (∃ t ∈ wf.tasks, t.status = TaskStatus.pending) →
      lookupA (enginePass e wfId now).workflows wfId =
        some { wf with status := WorkflowStatus.failed, completed_at := some now,
                       metadata := updateA wf.metadata "error"
                         "Workflow is stuck - no tasks can proceed" } ∧
      wfId ∉ (enginePass e wfId now).active_ids ∧
      wfId ∈ (enginePass e wfId now).completed_ids ∧
      EventRec.mk "workflow_failed" wfId none ∈ (enginePass e wfId now).events) ∧
    (workflowStatusAt d6 "d" = some WorkflowStatus.failed ∧
      EventRec.mk "workflow_failed" "d" none ∈ d6.events ∧
      lookupA ((lookupA d6.workflows "d").getD wfD).metadata "error" =
        some "Workflow is stuck - no tasks can proceed") := by
  constructor
  · intro e wfId wf now hw hA hnd hready hnorun hpend
    have hre : (getReadyTasks wf).isEmpty = true := by rw [hready]; rfl
    have hc : isWorkflowComplete wf = false := by
      obtain ⟨t, ht, hp⟩ := hpend
      simp only [isWorkflowComplete]
      rw [List.all_eq_false]
      exact ⟨t, ht, by simp [hp]⟩
    have hs : isWorkflowStuck wf = true := by
      simp only [isWorkflowStuck, Bool.and_eq_true, decide_eq_true_eq]
      constructor
      · obtain ⟨t, ht, hp⟩ := hpend
        have hmem : t ∈ wf.tasks.filter (fun t => t.status == TaskStatus.pending) :=
          List.mem_filter.mpr ⟨ht, by simp [hp]⟩
        exact List.length_pos.mpr (List.ne_nil_of_mem hmem)
      · rw [List.length_eq_zero, List.filter_eq_nil_iff]
        intro a ha
        simp [hnorun a ha]
    have hpass : enginePass e wfId now =
        addEvent { failMut e wfId "Workflow is stuck - no tasks can proceed" now with
                   active_ids :=
                     (failMut e wfId "Workflow is stuck - no tasks can proceed" now).active_ids.erase wfId }
          "workflow_failed" wfId none := by
      simp only [enginePass, hw, hre, hc, hs, hA]
      simp
    rw [hpass]
    refine ⟨?_, ?_, ?_, ?_⟩
    · show lookupA (failMut e wfId _ now).workflows wfId = _
      rw [failMut_workflows e wfId _ now wf hw, lookupA_updateA_self]
    · show wfId ∉ (failMut e wfId _ now).active_ids.erase wfId
      rw [failMut_active]
      intro hmem
      exact ((hnd.mem_erase_iff).mp hmem).1 rfl
    · show wfId ∈ (failMut e wfId _ now).completed_ids
      rw [failMut_completed e wfId _ now wf hw]
      exact mem_addId_self _ _
    · show _ ∈ (failMut e wfId _ now).events ++ _
      rw [failMut_events]
      simp
  · constructor
    · decide
    · constructor
      · decide
      · decide

/-- C3 witness: the deadlock rule applied at the concrete state `d5` of the
missing-dependency scenario (task `DA` completed, task `DB` blocked behind the
nonexistent id `ghost`). -/
theorem C3_stuck_detection_witness :
    lookupA (enginePass d5 "d" 4).workflows "d" =
      some { d5wf with status := WorkflowStatus.failed, completed_at := some 4,
                       metadata := updateA d5wf.metadata "error"
                         "Workflow is stuck - no tasks can proceed" } ∧
    "d" ∉ (enginePass d5 "d" 4).active_ids ∧
    "d" ∈ (enginePass d5 "d" 4).completed_ids ∧
    EventRec.mk "workflow_failed" "d" none ∈ (enginePass d5 "d" 4).events :=
  C3_stuck_detection.1 d5 "d" d5wf 4 (by decide) (by decide) (by decide)
    (by decide) (by decide) (by decide)

/-- C4: `cancel_workflow` does immediately set the workflow `CANCELLED`, mark
the `RUNNING` task `CANCELLED`, move the workflow to the completed dict and
emit `workflow_cancelled`; but the claim that no task `PENDING` at
cancellation time is ever dispatched afterwards is false on the code: the
driver loop of `_execute_workflow` never consults the workflow status, so its
next pass dispatches the still-`PENDING` task `B`, which reaches `RUNNING`. -/
theorem C4_cancel_pending_dispatched :
    workflowStatusAt cs5 "w" = some WorkflowStatus.cancelled ∧
    taskStatusAt cs5 "w" "A" = some TaskStatus.cancelled ∧
    taskStatusAt cs5 "w" "B" = some TaskStatus.pending ∧
    "w" ∉ cs5.active_ids ∧ "w" ∈ cs5.completed_ids ∧
    EventRec.mk "workflow_cancelled" "w" none ∈ cs5.events ∧
    ("w", "B") ∈ cs7.queue ∧
    taskStatusAt cs8 "w" "B" = some TaskStatus.running := by
  decide

/-- C5: the claim that a task status set to `CANCELLED` by workflow
cancellation is never overwritten is false on the code: the success path of
`_execute_task` has no status guard, so when task `A`'s in-flight executor
call returns, `A` is transitioned from `CANCELLED` to `COMPLETED`, its
`result` field is set, and its output is written into `workflow.context`. -/
theorem C5_cancelled_resurrected :
    taskStatusAt cs5 "w" "A" = some TaskStatus.cancelled ∧
    taskStatusAt cs6 "w" "A" = some TaskStatus.completed ∧
    (taskResultAt cs6 "w" "A").isSome = true ∧
    contextAt cs6 "w" "A" = some "resultA" := by
  decide

/-- C6: the `timeout` field of a `Task` has no effect on any mutation the
engine performs on a task: the executor call in `_execute_task` is awaited
with no timer race, so the claim that the executor call is bounded by
`timeout` seconds is false on the code.  Changing `timeout` commutes with the
start, success, failure-record and retry mutations, and does not change
readiness. -/
theorem C6_timeout_unused (t : Task) (k now : Nat) (err payload : String)
    (wf : Workflow) :
    taskStartUpd now { t with timeout := k } = { taskStartUpd now t with timeout := k } ∧
    taskSuccessUpd now payload { t with timeout := k } =
      { taskSuccessUpd now payload t with timeout := k } ∧
    taskFailRecord now err { t with timeout := k } =
      { taskFailRecord now err t with timeout := k } ∧
    taskMaybeRetry { t with timeout := k } = { taskMaybeRetry t with timeout := k } ∧
    ({ t with timeout := k }.status == TaskStatus.pending &&
      { t with timeout := k }.dependencies.all (depSatisfied wf)) =
      (t.status == TaskStatus.pending && t.dependencies.all (depSatisfied wf)) := by
  refine ⟨rfl, rfl, rfl, ?_, rfl⟩
  unfold taskMaybeRetry
  by_cases h : t.retry_count < t.max_retries <;> simp [h]

/-- C7: the claim that at most `max_concurrent_tasks` tasks are ever
simultaneously `RUNNING` across the engine is false on the code:
`_running_tasks` is read when a pass slices the ready list but is incremented
only when each created `_execute_task` coroutine later starts, so the first
passes of two workflow drivers (both run before any created coroutine) each
dispatch against the stale counter; here 21 tasks are simultaneously
`RUNNING` with `max_concurrent_tasks = 20`. -/
theorem C7_ceiling_exceeded :
    n7.max_concurrent_tasks = 20 ∧ runningTaskCount n7 = 21 ∧
    n7.running_tasks = 21 := by
  decide

/-- C8 counterexample: the claimed equivalence `workflow.status = COMPLETED ↔
all tasks COMPLETED` does not hold at every moment: at state `m5` every task
of workflow `s` is `COMPLETED` while the workflow status is still `RUNNING`
(the driver marks the workflow `COMPLETED` only at its next pass). -/
theorem C8_transient_violation :
    (lookupA m5.workflows "s").map isWorkflowComplete = some true ∧
    workflowStatusAt m5 "s" = some WorkflowStatus.running ∧
    WorkflowStatus.running ≠ WorkflowStatus.completed := by
  decide

theorem addEvent_workflows (e : Engine) (n w : String) (t : Option String) :
    (addEvent e n w t).workflows = e.workflows := rfl

theorem completeMut_workflows (e : Engine) (i : String) (now : Nat) (wf : Workflow)
    (hw : lookupA e.workflows i = some wf) :
    (completeMut e i now).workflows =
      updateA e.workflows i
        { wf with status := WorkflowStatus.completed, completed_at := some now } := by
  unfold completeMut; rw [hw]; rfl

theorem isWorkflowComplete_iff (wf : Workflow) :
    isWorkflowComplete wf = true ↔ ∀ t ∈ wf.tasks, t.status = TaskStatus.completed := by
  simp [isWorkflowComplete, List.all_eq_true]

theorem getReadyTasks_eq_nil_of_complete (wf : Workflow)
    (hc : isWorkflowComplete wf = true) : getReadyTasks wf = [] := by
  rw [isWorkflowComplete_iff] at hc
  unfold getReadyTasks
  rw [List.filter_eq_nil_iff]
  intro t ht
  simp [hc t ht]

/-- The workflow status observed after one driver pass, as a function of the
pass's branch conditions. -/
theorem enginePass_status (e : Engine) (wfId : String) (wf : Workflow) (now : Nat)
    (hw : lookupA e.workflows wfId = some wf) (hA : wfId ∈ e.active_ids) :
    workflowStatusAt (enginePass e wfId now) wfId =
      if (getReadyTasks wf).isEmpty then
        if isWorkflowComplete wf then some WorkflowStatus.completed
        else if isWorkflowStuck wf then some WorkflowStatus.failed
        else some wf.status
      else some wf.status := by
  by_cases hre : (getReadyTasks wf).isEmpty = true
  · rw [if_pos hre]
    by_cases hc : isWorkflowComplete wf = true
    · rw [if_pos hc]
      have hpass : enginePass e wfId now =
          addEvent { completeMut e wfId now with
                     active_ids := (completeMut e wfId now).active_ids.erase wfId }
            "workflow_completed" wfId none := by
        simp only [enginePass, hw, hre, hc, hA]
        simp
      rw [hpass]
      have hwfs : (addEvent { completeMut e wfId now with
                   active_ids := (completeMut e wfId now).active_ids.erase wfId }
            "workflow_completed" wfId none).workflows = (completeMut e wfId now).workflows := rfl
      simp only [workflowStatusAt, hwfs]
      rw [completeMut_workflows e wfId now wf hw, lookupA_updateA_self]
      rfl
    · have hcf : isWorkflowComplete wf = false := by
        cases h : isWorkflowComplete wf
        · rfl
        · exact absurd h hc
      rw [if_neg hc]
      by_cases hstk : isWorkflowStuck wf = true
      · rw [if_pos hstk]
        have hpass : enginePass e wfId now =
            addEvent { failMut e wfId "Workflow is stuck - no tasks can proceed" now with
                       active_ids :=
                         (failMut e wfId "Workflow is stuck - no tasks can proceed"
                           now).active_ids.erase wfId }
              "workflow_failed" wfId none := by
          simp only [enginePass, hw, hre, hcf, hstk, hA]
          simp
        rw [hpass]
        have hwfs : (addEvent { failMut e wfId "Workflow is stuck - no tasks can proceed" now with
                     active_ids :=
                       (failMut e wfId "Workflow is stuck - no tasks can proceed"
                         now).active_ids.erase wfId }
              "workflow_failed" wfId none).workflows =
            (failMut e wfId "Workflow is stuck - no tasks can proceed" now).workflows := rfl
        simp only [workflowStatusAt, hwfs]
        rw [failMut_workflows e wfId _ now wf hw, lookupA_updateA_self]
        rfl
      · have hsf : isWorkflowStuck wf = false := by
          cases h : isWorkflowStuck wf
          · rfl
          · exact absurd h hstk
        rw [if_neg hstk]
        have hpass : enginePass e wfId now = e := by
          simp only [enginePass, hw, hre, hcf, hsf]
          simp
        rw [hpass]
        simp [workflowStatusAt, hw]
  · rw [if_neg hre]
    have hpass : enginePass e wfId now =
        { e with queue := e.queue ++ (dispatchSelection e wf).map (fun t => (wfId, t.id)) } := by
      simp only [enginePass, hw, hre]
      simp
    rw [hpass]
    simp [workflowStatusAt, hw]

/-- C8 (amended): a driver pass marks a not-yet-completed active workflow
`COMPLETED` exactly when every one of its owned tasks is `COMPLETED` at the
pass; hence at the moment a workflow becomes `COMPLETED` no task is `PENDING`
or `RUNNING`.  (The unqualified at-every-time equivalence claimed by the spec
fails transiently, see the counterexample.) -/
theorem C8_pass_completion_iff (e : Engine) (wfId : String) (wf : Workflow) (now : Nat)
    (hw : lookupA e.workflows wfId = some wf) (hA : wfId ∈ e.active_ids)
    (hs : wf.status ≠ WorkflowStatus.completed) :
    ((workflowStatusAt (enginePass e wfId now) wfId = some WorkflowStatus.completed) ↔
      isWorkflowComplete wf = true) ∧
    (isWorkflowComplete wf = true ↔ ∀ t ∈ wf.tasks, t.status = TaskStatus.completed) := by
  refine ⟨?_, isWorkflowComplete_iff wf⟩
  rw [enginePass_status e wfId wf now hw hA]
  by_cases hre : (getReadyTasks wf).isEmpty = true
  · rw [if_pos hre]
    by_cases hc : isWorkflowComplete wf = true
    · simp [hc]
    · have hcf : isWorkflowComplete wf = false := by
        cases h : isWorkflowComplete wf
        · rfl
        · exact absurd h hc
      rw [if_neg hc]
      by_cases hstk : isWorkflowStuck wf = true
      · simp [hstk, hcf]
      · rw [if_neg hstk]
        simp [hcf, hs]
  · rw [if_neg hre]
    have hcf : isWorkflowComplete wf = false := by
      cases h : isWorkflowComplete wf
      · rfl
      · exact absurd (by rw [getReadyTasks_eq_nil_of_complete wf h]; rfl) hre
    simp [hcf, hs]

/-- C8 witness: the amended completion rule applied at the concrete state `m5`
(single task `T` already `COMPLETED`, workflow still `RUNNING`): the next pass
marks the workflow `COMPLETED`. -/
theorem C8_pass_completion_iff_witness :
    ((workflowStatusAt (enginePass m5 "s" 4) "s" = some WorkflowStatus.completed) ↔
      isWorkflowComplete m5wf = true) ∧
    (isWorkflowComplete m5wf = true ↔ ∀ t ∈ m5wf.tasks, t.status = TaskStatus.completed) :=
  C8_pass_completion_iff m5 "s" m5wf 4 (by decide) (by decide) (by decide)

/-- C9: for any workflow found by id whose task list is non-empty,
`get_workflow_status` returns a snapshot whose `progress_percentage` equals
`(completed tasks / total tasks) * 100`; on an unknown id it returns no
snapshot.  The non-empty hypothesis is required because the division by
`len(workflow.tasks)` is unguarded (`ZeroDivisionError` branch of the model). -/
theorem C9_progress (e : Engine) (wfId : String) (wf : Workflow)
    (h : foundWorkflow e wfId = some wf) (hne : wf.tasks ≠ []) :
    getWorkflowStatus e wfId =
      Except.ok (some
        { id := wf.id, name := wf.name, status := wf.status.value,
          total_tasks := wf.tasks.length, completed_tasks := completedCount wf,
          failed_tasks := failedCount wf, running_tasks := runningCount wf,
          progress_percentage := ((completedCount wf : ℚ) / (wf.tasks.length : ℚ)) * 100,
          created_at := wf.created_at, started_at := wf.started_at,
          completed_at := wf.completed_at, metadata := wf.metadata }) ∧
    (∀ j, foundWorkflow e j = none → getWorkflowStatus e j = Except.ok none) := by
  constructor
  · simp only [getWorkflowStatus, h]
    rw [if_neg (by rw [List.length_eq_zero]; exact hne)]
  · intro j hj
    simp only [getWorkflowStatus, hj]

/-- C9 witness: the snapshot rule applied at the concrete state `cs6`
(workflow `w` with one `COMPLETED` and one `PENDING` task, found in the
completed dict): `progress_percentage = 50`. -/
theorem C9_progress_witness :
    (getWorkflowStatus cs6 "w" =
      Except.ok (some
        { id := cs6wf.id, name := cs6wf.name, status := cs6wf.status.value,
          total_tasks := cs6wf.tasks.length, completed_tasks := completedCount cs6wf,
          failed_tasks := failedCount cs6wf, running_tasks := runningCount cs6wf,
          progress_percentage := ((completedCount cs6wf : ℚ) / (cs6wf.tasks.length : ℚ)) * 100,
          created_at := cs6wf.created_at, started_at := cs6wf.started_at,
          completed_at := cs6wf.completed_at, metadata := cs6wf.metadata }) ∧
    (∀ j, foundWorkflow cs6 j = none → getWorkflowStatus cs6 j = Except.ok none)) ∧
    ((completedCount cs6wf : ℚ) / (cs6wf.tasks.length : ℚ)) * 100 = 50 := by
  constructor
  · exact C9_progress cs6 "w" cs6wf (by decide) (by decide)
  · norm_num [show completedCount cs6wf = 1 from by decide,
      show cs6wf.tasks.length = 2 from by decide]

/-- C10: on an active workflow, `cancel_workflow` returns `True` and changes
exactly the workflow's `status` and `completed_at` plus the `status` and
`completed_at` of the tasks that were `RUNNING` at call time (every task not
`RUNNING` — in particular `PENDING`, `COMPLETED` and `FAILED` ones — is left
untouched, a pending task stays `PENDING`), and every other workflow held by
the engine is unchanged, both in content and in active/completed membership. -/
theorem C10_cancel_frame (e : Engine) (wfId : String) (wf : Workflow) (now : Nat)
    (hA : wfId ∈ e.active_ids) (hw : lookupA e.workflows wfId = some wf) :
    (cancelWorkflow e wfId now).2 = true ∧
    lookupA (cancelWorkflow e wfId now).1.workflows wfId =
      some { wf with status := WorkflowStatus.cancelled, completed_at := some now,
                     tasks := wf.tasks.map (fun t =>
                       if t.status = TaskStatus.running then
                         { t with status := TaskStatus.cancelled, completed_at := some now }
                       else t) } ∧
    (∀ t : Task, t.status ≠ TaskStatus.running →
      (if t.status = TaskStatus.running then
         { t with status := TaskStatus.cancelled, completed_at := some now } else t) = t) ∧
    (∀ j, j ≠ wfId →
      lookupA (cancelWorkflow e wfId now).1.workflows j = lookupA e.workflows j) ∧
    (∀ j, j ≠ wfId →
      ((j ∈ (cancelWorkflow e wfId now).1.active_ids ↔ j ∈ e.active_ids) ∧
       (j ∈ (cancelWorkflow e wfId now).1.completed_ids ↔ j ∈ e.completed_ids))) := by
  have hcan : cancelWorkflow e wfId now =
      (addEvent
        { setWorkflow e wfId
            { wf with status := WorkflowStatus.cancelled, completed_at := some now,
                      tasks := wf.tasks.map (fun t =>
                        if t.status = TaskStatus.running then
                          { t with status := TaskStatus.cancelled, completed_at := some now }
                        else t) } with
          completed_ids := addId e.completed_ids wfId,
          active_ids := e.active_ids.erase wfId }
        "workflow_cancelled" wfId none, true) := by
    simp only [cancelWorkflow, hA, hw]
    simp
    rfl
  rw [hcan]
  refine ⟨rfl, ?_, ?_, ?_, ?_⟩
  · show lookupA (updateA e.workflows wfId _) wfId = _
    rw [lookupA_updateA_self]
  · intro t ht
    rw [if_neg ht]
  · intro j hj
    show lookupA (updateA e.workflows wfId _) j = _
    exact lookupA_updateA_ne _ _ _ _ hj
  · intro j hj
    constructor
    · show j ∈ e.active_ids.erase wfId ↔ _
      exact List.mem_erase_of_ne hj
    · show j ∈ addId e.completed_ids wfId ↔ _
      exact mem_addId_of_ne _ _ _ hj

/-- C10 witness: the cancellation frame property applied at the concrete state
`cs4` (task `A` running, task `B` pending). -/
theorem C10_cancel_frame_witness :
    (cancelWorkflow cs4 "w" 3).2 = true ∧
    lookupA (cancelWorkflow cs4 "w" 3).1.workflows "w" =
      some { cs4wf with status := WorkflowStatus.cancelled, completed_at := some 3,
                        tasks := cs4wf.tasks.map (fun t =>
                          if t.status = TaskStatus.running then
                            { t with status := TaskStatus.cancelled, completed_at := some 3 }
                          else t) } ∧
    (∀ t : Task, t.status ≠ TaskStatus.running →
      (if t.status = TaskStatus.running then
         { t with status := TaskStatus.cancelled, completed_at := some 3 } else t) = t) ∧
    (∀ j, j ≠ "w" →
      lookupA (cancelWorkflow cs4 "w" 3).1.workflows j = lookupA cs4.workflows j) ∧
    (∀ j, j ≠ "w" →
      ((j ∈ (cancelWorkflow cs4 "w" 3).1.active_ids ↔ j ∈ cs4.active_ids) ∧
       (j ∈ (cancelWorkflow cs4 "w" 3).1.completed_ids ↔ j ∈ cs4.completed_ids))) :=
  C10_cancel_frame cs4 "w" cs4wf 3 (by decide) (by decide)

end WEngine
